import Mathlib

/-
Verification of the pywire client transport layer.

The development embeds the WebSocket transport from
src/pywire/client/src/core/transports/websocket.ts as an explicit
state machine, and models the TransportManager and the handler
registration interface of BaseTransport from the written design
(their sources are not part of the checked tree; only the test suite
app.test.ts and the WebSocket subclass are).
-/

set_option maxRecDepth 4096

/-- State of a JavaScript promise: it settles at most once, and the first
resolve or reject wins. -/
inductive PromiseState
  | pending
  | resolved
  | rejected
deriving DecidableEq, Repr

/-- Invoking resolve on a promise: only a pending promise changes. -/
def resolveP : PromiseState → PromiseState
  | .pending => .resolved
  | s => s

/-- Invoking reject on a promise: only a pending promise changes. -/
def rejectP : PromiseState → PromiseState
  | .pending => .rejected
  | s => s

/-- The three transport candidates, in the priority order the manager uses:
the datagram transport (WebTransport), the socket transport (WebSocket),
and the request/response fallback (HTTP). -/
inductive TName
  | datagram
  | socket
  | http
deriving DecidableEq, Repr

namespace TransportManager

/-- Modelled from the spec: the recognized TransportManager configuration
record, with both transport toggles defaulting to true. -/
structure Config where
  enableWebTransport : Bool := true
  enableWebSocket : Bool := true

/-- Modelled from the spec: the environment facts the precondition gates
read, namely whether the page is loaded over a secure protocol and whether
the datagram transport capability check succeeds. -/
structure PageEnv where
  secure : Bool
  supported : Bool

/-- Modelled from the spec: the ordered candidate list, built once from the
configuration, most capable first; the request/response fallback is always
present. -/
def candidates (cfg : Config) : List TName :=
  (if cfg.enableWebTransport then [TName.datagram] else []) ++
    (if cfg.enableWebSocket then [TName.socket] else []) ++ [TName.http]

/-- Modelled from the spec: the precondition gate. Only the datagram
transport has one: the page must be secure and the capability check must
pass. The fallback has no precondition at all. -/
def gate (env : PageEnv) : TName → Bool
  | TName.datagram => env.secure && env.supported
  | TName.socket => true
  | TName.http => true

/-- An environment choice of which transport connect calls would succeed. -/
def mkOutcome (d s h : Bool) : TName → Bool
  | TName.datagram => d
  | TName.socket => s
  | TName.http => h

/-- Result of a manager connect run: which candidates had connect invoked,
which one became active, and the rejection message when all failed. -/
structure Result where
  attempted : List TName
  active : Option TName
  errMsg : Option String
deriving DecidableEq, Repr

/-- Modelled from the spec: try each gated candidate in order, recording
each connect invocation, and stop at the first success. -/
def tryCandidates (outcome : TName → Bool) : List TName → List TName × Option TName
  | [] => ([], none)
  | t :: rest =>
    if outcome t then ([t], some t)
    else
      let r := tryCandidates outcome rest
      (t :: r.1, r.2)

/-- Modelled from the spec: TransportManager.connect iterates the candidates
in priority order, skips a candidate whose precondition gate fails without
invoking its connect, stops at the first success, and rejects with the fixed
message when every candidate was skipped or failed. -/
def connect (cfg : Config) (env : PageEnv) (outcome : TName → Bool) : Result :=
  let gated := (candidates cfg).filter (gate env)
  let r := tryCandidates outcome gated
  { attempted := r.1
    active := r.2
    errMsg := if r.2.isNone then some "PyWire: All transports failed" else none }

/-- Modelled from the spec: getActiveTransport reports the active candidate
(whose name field the real manager returns), or none. -/
def getActiveTransport (r : Result) : Option TName :=
  r.active

/-- Modelled from the spec: the manager-level handler registration state.
Handlers are identified by numeric ids; registrations made before a
connection exists are buffered, in order. -/
structure Handlers where
  active : Option TName
  buffered : List Nat
  activeHandlers : List Nat
deriving DecidableEq, Repr

/-- Modelled from the spec: a freshly constructed manager has no active
transport and no registrations. -/
def hInit : Handlers :=
  { active := none, buffered := [], activeHandlers := [] }

/-- Modelled from the spec: onMessage registers directly on the active
transport when one exists, and otherwise buffers the registration. -/
def onMessage (s : Handlers) (hid : Nat) : Handlers :=
  match s.active with
  | some _ => { s with activeHandlers := s.activeHandlers ++ [hid] }
  | none => { s with buffered := s.buffered ++ [hid] }

/-- Modelled from the spec: when a candidate connect succeeds, the manager
sets it active and replays every buffered registration onto it, in order,
through the candidate registration operations. -/
def connectSuccess (s : Handlers) (winner : TName) : Handlers :=
  { s with active := some winner, activeHandlers := s.activeHandlers ++ s.buffered }

end TransportManager

/-- Delivery of one decoded payload to every registered handler, in
registration order; each invocation is recorded as a pair of handler id and
payload. -/
def notifyAll {α : Type} (handlers : List Nat) (m : α) : List (Nat × α) :=
  handlers.map fun hid => (hid, m)

/-- Delivery of a sequence of decoded frames, in arrival order, each to all
registered handlers. -/
def deliverFrames {α : Type} (handlers : List Nat) : List α → List (Nat × α)
  | [] => []
  | m :: ms => notifyAll handlers m ++ deliverFrames handlers ms

namespace WebSocketTransport

/-- The constant maxReconnectDelay field of WebSocketTransport. -/
def maxReconnectDelay : Nat := 5000

/-- The delay computed by scheduleReconnect:
min(1000 * 2 ^ reconnectAttempts, maxReconnectDelay). -/
def reconnectDelay (attempts : Nat) : Nat :=
  min (1000 * 2 ^ attempts) maxReconnectDelay

/-- State of one WebSocketTransport instance. socket records whether the
socket field is non-null, connected is the BaseTransport connectivity flag
written by notifyStatus, promise is the state of the promise returned by
the most recent connect call, pendingTimers counts reconnect timers that
were scheduled by setTimeout and have not yet fired, scheduledDelays logs
the delay passed to each setTimeout, and connectCalls counts invocations
of connect. -/
structure State where
  socket : Bool
  connected : Bool
  reconnectAttempts : Nat
  shouldReconnect : Bool
  promise : PromiseState
  pendingTimers : Nat
  scheduledDelays : List Nat
  connectCalls : Nat
deriving DecidableEq, Repr

/-- A freshly constructed transport: the field initializers set socket to
null, reconnectAttempts to 0 and shouldReconnect to true; the BaseTransport
connectivity flag starts false. -/
def mkState : State :=
  { socket := false
    connected := false
    reconnectAttempts := 0
    shouldReconnect := true
    promise := .pending
    pendingTimers := 0
    scheduledDelays := []
    connectCalls := 0 }

/-- The connect method body: a new WebSocket is constructed and stored in
the socket field, and a fresh pending promise is returned. -/
def connect (s : State) : State :=
  { s with socket := true, promise := .pending, connectCalls := s.connectCalls + 1 }

/-- The onopen handler: notifyStatus(true), reset reconnectAttempts to 0,
resolve the connect promise. -/
def onopen (s : State) : State :=
  { s with connected := true, reconnectAttempts := 0, promise := resolveP s.promise }

/-- The onerror handler: the error is logged, and the connect promise is
rejected only when the transport is not connected. -/
def onerror (s : State) : State :=
  if s.connected then s else { s with promise := rejectP s.promise }

/-- The onclose handler: notifyStatus(false), then scheduleReconnect when
the shouldReconnect flag is still set. scheduleReconnect computes the
backoff delay from the current reconnectAttempts and passes it to
setTimeout, adding one pending timer. -/
def onclose (s : State) : State :=
  if s.shouldReconnect then
    { s with
      connected := false
      pendingTimers := s.pendingTimers + 1
      scheduledDelays := s.scheduledDelays ++ [reconnectDelay s.reconnectAttempts] }
  else { s with connected := false }

/-- The disconnect method: clear shouldReconnect, close and null the socket,
notifyStatus(false). No timer handle is stored, so pendingTimers is not
touched. -/
def disconnect (s : State) : State :=
  { s with shouldReconnect := false, socket := false, connected := false }

/-- A scheduled reconnect timer firing: its callback increments
reconnectAttempts and calls connect again. -/
def timerFire (s : State) : State :=
  if s.pendingTimers = 0 then s
  else
    connect
      { s with pendingTimers := s.pendingTimers - 1, reconnectAttempts := s.reconnectAttempts + 1 }

/-- The BaseTransport isConnected accessor. -/
def isConnected (s : State) : Bool :=
  s.connected

/-- The events a single underlying socket can deliver to the handlers the
connect call installed. -/
inductive SockEv
  | openEv
  | errorEv
  | closeEv
deriving DecidableEq, Repr

/-- Dispatch of one socket event to the matching handler. -/
def stepEv (s : State) : SockEv → State
  | .openEv => onopen s
  | .errorEv => onerror s
  | .closeEv => onclose s

/-- Running a sequence of socket events from a state. -/
def runEvs (s : State) (evs : List SockEv) : State :=
  evs.foldl stepEv s

/-- One unexpected-close/reconnect-fire cycle: the socket closes after a
successful open, the scheduled timer later fires and reconnects. -/
def backoffCycle (s : State) : State :=
  timerFire (onclose s)

/-- The state right after a successful first connect: connect was called
and the open event arrived. -/
def connectedState : State :=
  onopen (connect mkState)

/-- State of the inbound message path of a transport, over an abstract
decoded payload type. delivered logs every payload handed to a handler, in
invocation order, and errorsLogged counts messages written by the catch
block of the onmessage handler. -/
structure MsgState (Msg : Type) where
  connected : Bool
  promise : PromiseState
  shouldReconnect : Bool
  socketOpen : Bool
  pendingTimers : Nat
  delivered : List Msg
  errorsLogged : Nat

/-- The BaseTransport notifyHandlers loop, modelled from the spec: handlers
are invoked synchronously in registration order; a handler that throws
stops the loop and the exception propagates to the caller. The result is
how many handlers were invoked and whether an exception escaped. -/
def runHandlers {Msg : Type} : List (Msg → Except String Unit) → Msg → Nat × Bool
  | [], _ => (0, false)
  | h :: t, m =>
    match h m with
    | .ok _ =>
      let r := runHandlers t m
      (r.1 + 1, r.2)
    | .error _ => (1, true)

/-- The payloads one inbound frame causes to be delivered: none when the
frame fails to decode, and one copy per invoked handler otherwise. -/
def deliveredBy {Frame Msg : Type} (decode : Frame → Except String Msg)
    (hs : List (Msg → Except String Unit)) (f : Frame) : List Msg :=
  match decode f with
  | .error _ => []
  | .ok m => List.replicate (runHandlers hs m).1 m

/-- The onmessage handler: the decode of the frame and the notifyHandlers
call are both inside one try block; any exception is caught and logged, and
nothing else in the transport state is touched. -/
def onmessage {Frame Msg : Type} (decode : Frame → Except String Msg)
    (hs : List (Msg → Except String Unit)) (s : MsgState Msg) (f : Frame) : MsgState Msg :=
  match decode f with
  | .error _ => { s with errorsLogged := s.errorsLogged + 1 }
  | .ok m =>
    let r := runHandlers hs m
    { s with
      delivered := s.delivered ++ List.replicate r.1 m
      errorsLogged := s.errorsLogged + (if r.2 then 1 else 0) }

end WebSocketTransport

/-- State reached by: successful connect, unexpected close (one reconnect
timer now pending), then two disconnect calls. -/
def WebSocketTransport.cexDisconnectState : WebSocketTransport.State :=
  WebSocketTransport.disconnect (WebSocketTransport.disconnect
    (WebSocketTransport.onclose WebSocketTransport.connectedState))

/-- State reached by: a first connect call whose socket emits an error
before ever opening, followed by the close event the browser then fires. -/
def WebSocketTransport.cexFailedConnectState : WebSocketTransport.State :=
  WebSocketTransport.onclose (WebSocketTransport.onerror
    (WebSocketTransport.connect WebSocketTransport.mkState))

/-- A concrete decoder over numeric frames that fails on frame 0. -/
def decNat : Nat → Except String Nat :=
  fun n => if n = 0 then Except.error "bad" else Except.ok n

/-- A concrete decoder over numeric frames that always succeeds. -/
def idDecode : Nat → Except String Nat :=
  fun n => Except.ok n

/-- A concrete message handler that returns normally. -/
def okHandler : Nat → Except String Unit :=
  fun _ => Except.ok ()

/-- A concrete message handler that throws. -/
def throwHandler : Nat → Except String Unit :=
  fun _ => Except.error "boom"

/-- A concrete connected inbound-path state with nothing delivered yet. -/
def msg0 : WebSocketTransport.MsgState Nat :=
  { connected := true
    promise := .resolved
    shouldReconnect := true
    socketOpen := true
    pendingTimers := 0
    delivered := []
    errorsLogged := 0 }

/-- Buffering lemma: folding onMessage registrations over a manager state
with no active transport keeps it inactive and appends the handler ids to
the buffer in order. -/
theorem foldl_onMessage_buffered (hs : List Nat) (s : TransportManager.Handlers)
    (hact : s.active = none) :
    (hs.foldl TransportManager.onMessage s).active = none ∧
      (hs.foldl TransportManager.onMessage s).buffered = s.buffered ++ hs ∧
      (hs.foldl TransportManager.onMessage s).activeHandlers = s.activeHandlers := by
  induction hs generalizing s with
  | nil => simp [hact]
  | cons a t ih =>
    have h1 : TransportManager.onMessage s a = { s with buffered := s.buffered ++ [a] } := by
      simp [TransportManager.onMessage, hact]
    have h2 := ih { s with buffered := s.buffered ++ [a] } hact
    simp only [List.foldl_cons, h1]
    simpa using h2

/-- Filtering the deliveries of one frame for a handler id that is not
registered yields nothing. -/
theorem notifyAll_filter_not_mem {α : Type} (hs : List Nat) (m : α) (hid : Nat)
    (hmem : hid ∉ hs) :
    (notifyAll hs m).filter (fun p => p.1 == hid) = [] := by
  induction hs with
  | nil => rfl
  | cons a t ih =>
    have hne : ¬a = hid := fun hEq => hmem (by rw [hEq]; exact List.mem_cons_self hid t)
    have ht : hid ∉ t := fun hmt => hmem (List.mem_cons_of_mem a hmt)
    show ((a, m) :: notifyAll t m).filter (fun p => p.1 == hid) = []
    rw [List.filter_cons]
    simp [hne, ih ht]

/-- Filtering the deliveries of one frame for a registered handler id
yields exactly one delivery of the payload, provided ids are not
duplicated. -/
theorem notifyAll_filter_mem {α : Type} (hs : List Nat) (m : α) (hid : Nat)
    (hnd : hs.Nodup) (hmem : hid ∈ hs) :
    (notifyAll hs m).filter (fun p => p.1 == hid) = [(hid, m)] := by
  induction hs with
  | nil => cases hmem
  | cons a t ih =>
    have hnd2 := List.nodup_cons.mp hnd
    rcases List.mem_cons.mp hmem with hEq | hmt
    · subst hEq
      show ((hid, m) :: notifyAll t m).filter (fun p => p.1 == hid) = [(hid, m)]
      rw [List.filter_cons]
      simp [notifyAll_filter_not_mem t m hid hnd2.1]
    · have hna : ¬a = hid := fun hEq => hnd2.1 (by rw [hEq]; exact hmt)
      show ((a, m) :: notifyAll t m).filter (fun p => p.1 == hid) = [(hid, m)]
      rw [List.filter_cons]
      simp [hna, ih hnd2.2 hmt]

/-- Over any frame sequence, a registered handler receives exactly the
payload sequence, once each, in arrival order. -/
theorem deliverFrames_filter {α : Type} (hs : List Nat) (hid : Nat)
    (hnd : hs.Nodup) (hmem : hid ∈ hs) :
    ∀ ms : List α, ((deliverFrames hs ms).filter (fun p => p.1 == hid)).map Prod.snd = ms
  | [] => rfl
  | m :: ms => by
    show (((notifyAll hs m ++ deliverFrames hs ms).filter (fun p => p.1 == hid)).map Prod.snd) = m :: ms
    rw [List.filter_append, List.map_append, notifyAll_filter_mem hs m hid hnd hmem,
      deliverFrames_filter hs hid hnd hmem ms]
    rfl

/-- Claim C1: TransportManager.connect iterates its candidates strictly in
priority order (datagram, then socket, then request/response fallback); on
the first candidate whose connect succeeds it sets that candidate active,
returns success immediately, never invokes connect on any remaining
candidate, and getActiveTransport then reports the winning candidate. -/
theorem tm_connect_first_success (ewt ews sec sup d s h : Bool) (t : TName)
    (hact : (TransportManager.connect ⟨ewt, ews⟩ ⟨sec, sup⟩
        (TransportManager.mkOutcome d s h)).active = some t) :
    TransportManager.mkOutcome d s h t = true ∧
      (TransportManager.connect ⟨ewt, ews⟩ ⟨sec, sup⟩
          (TransportManager.mkOutcome d s h)).attempted =
        ((TransportManager.candidates ⟨ewt, ews⟩).filter
            (TransportManager.gate ⟨sec, sup⟩)).takeWhile
            (fun c => !TransportManager.mkOutcome d s h c) ++ [t] ∧
      (TransportManager.connect ⟨ewt, ews⟩ ⟨sec, sup⟩
          (TransportManager.mkOutcome d s h)).errMsg = none ∧
      TransportManager.getActiveTransport
          (TransportManager.connect ⟨ewt, ews⟩ ⟨sec, sup⟩
            (TransportManager.mkOutcome d s h)) = some t := by
  revert hact
  revert ewt ews sec sup d s h t
  decide

/-- Witness for claim C1 at the all-enabled, all-succeeding configuration:
the datagram transport is attempted alone and becomes active. -/
theorem tm_connect_first_success_witness :
    (TransportManager.connect ⟨true, true⟩ ⟨true, true⟩
        (TransportManager.mkOutcome true true true)).attempted = [TName.datagram] ∧
      TransportManager.getActiveTransport
          (TransportManager.connect ⟨true, true⟩ ⟨true, true⟩
            (TransportManager.mkOutcome true true true)) = some TName.datagram := by
  have hx := tm_connect_first_success true true true true true true true TName.datagram (by decide)
  exact ⟨hx.2.1.trans (by decide), hx.2.2.2⟩

/-- Claim C2: if every gated candidate fails to connect (skipped candidates
never having been attempted at all), the manager rejects with the single
fixed message and no transport becomes active. -/
theorem tm_all_fail_message (ewt ews sec sup d s h : Bool)
    (hall : ∀ t ∈ (TransportManager.candidates ⟨ewt, ews⟩).filter
        (TransportManager.gate ⟨sec, sup⟩), TransportManager.mkOutcome d s h t = false) :
    (TransportManager.connect ⟨ewt, ews⟩ ⟨sec, sup⟩
        (TransportManager.mkOutcome d s h)).errMsg = some "PyWire: All transports failed" ∧
      (TransportManager.connect ⟨ewt, ews⟩ ⟨sec, sup⟩
          (TransportManager.mkOutcome d s h)).active = none := by
  revert hall
  revert ewt ews sec sup d s h
  decide

/-- Witness for claim C2: with every transport failing, connect rejects
with the fixed message and nothing is active. -/
theorem tm_all_fail_message_witness :
    (TransportManager.connect ⟨true, true⟩ ⟨true, true⟩
        (TransportManager.mkOutcome false false false)).errMsg =
          some "PyWire: All transports failed" ∧
      (TransportManager.connect ⟨true, true⟩ ⟨true, true⟩
          (TransportManager.mkOutcome false false false)).active = none :=
  tm_all_fail_message true true true true false false false (by decide)

/-- Counterexample to claim C3: the configuration that disables both the
datagram and the socket transport satisfies the claim hypothesis
(enableWebTransport is false), the datagram candidate is indeed never
attempted, yet the first candidate attempted is the request/response
fallback rather than the socket transport. -/
theorem tm_insecure_first_attempt_cex :
    TName.datagram ∉ (TransportManager.connect ⟨false, false⟩ ⟨false, true⟩
        (TransportManager.mkOutcome true true true)).attempted ∧
      (TransportManager.connect ⟨false, false⟩ ⟨false, true⟩
          (TransportManager.mkOutcome true true true)).attempted = [TName.http] ∧
      ¬(TransportManager.connect ⟨false, false⟩ ⟨false, true⟩
          (TransportManager.mkOutcome true true true)).attempted.head? = some TName.socket := by
  decide

/-- Claim C3 amended: whenever the page is insecure or enableWebTransport
is false, the datagram candidate never has connect invoked; and provided
the socket transport is not itself disabled by configuration, the socket
transport is the first candidate attempted. -/
theorem tm_datagram_gate_skip (ewt ews sec sup d s h : Bool)
    (hgate : sec = false ∨ ewt = false) :
    TName.datagram ∉ (TransportManager.connect ⟨ewt, ews⟩ ⟨sec, sup⟩
        (TransportManager.mkOutcome d s h)).attempted ∧
      (ews = true →
        (TransportManager.connect ⟨ewt, ews⟩ ⟨sec, sup⟩
            (TransportManager.mkOutcome d s h)).attempted.head? = some TName.socket) := by
  revert hgate
  revert ewt ews sec sup d s h
  decide

/-- Witness for the amended claim C3 on an insecure page with default
configuration: the datagram transport is skipped and the socket transport
is attempted first. -/
theorem tm_datagram_gate_skip_witness :
    TName.datagram ∉ (TransportManager.connect ⟨true, true⟩ ⟨false, true⟩
        (TransportManager.mkOutcome true true true)).attempted ∧
      (TransportManager.connect ⟨true, true⟩ ⟨false, true⟩
          (TransportManager.mkOutcome true true true)).attempted.head? = some TName.socket := by
  have hx := tm_datagram_gate_skip true true false true true true true (Or.inl rfl)
  exact ⟨hx.1, hx.2 rfl⟩

/-- Claim C4: every handler registered on the manager before connect is
replayed onto the winning transport in registration order with none lost,
and for every frame sequence the transport then decodes, such a handler
receives exactly the decoded payloads, once each, in arrival order. -/
theorem tm_preconnect_handlers_delivered {α : Type} (hs : List Nat) (w : TName)
    (ms : List α) (hid : Nat) (hnd : hs.Nodup) (hmem : hid ∈ hs) :
    (TransportManager.connectSuccess
        (hs.foldl TransportManager.onMessage TransportManager.hInit) w).activeHandlers = hs ∧
      (TransportManager.connectSuccess
          (hs.foldl TransportManager.onMessage TransportManager.hInit) w).active = some w ∧
      ((deliverFrames hs ms).filter (fun p => p.1 == hid)).map Prod.snd = ms := by
  have hb := foldl_onMessage_buffered hs TransportManager.hInit rfl
  refine ⟨?_, rfl, deliverFrames_filter hs hid hnd hmem ms⟩
  show (hs.foldl TransportManager.onMessage TransportManager.hInit).activeHandlers ++
      (hs.foldl TransportManager.onMessage TransportManager.hInit).buffered = hs
  rw [hb.2.1, hb.2.2]
  rfl

/-- Witness for claim C4 with two handlers registered before connect and
two inbound frames: handler 1 receives both payloads in order. -/
theorem tm_preconnect_handlers_delivered_witness :
    (TransportManager.connectSuccess
        ([0, 1].foldl TransportManager.onMessage TransportManager.hInit)
          TName.socket).activeHandlers = [0, 1] ∧
      (TransportManager.connectSuccess
          ([0, 1].foldl TransportManager.onMessage TransportManager.hInit)
            TName.socket).active = some TName.socket ∧
      ((deliverFrames [0, 1] [10, 20]).filter (fun p => p.1 == 1)).map Prod.snd = [10, 20] :=
  tm_preconnect_handlers_delivered [0, 1] TName.socket [10, 20] 1 (by decide) (by decide)

/-- Invariant of the reconnect loop: after n unexpected-close/timer-fire
cycles from a freshly connected transport, the attempt counter is n, the
reconnect flag is still set, no timer is pending, and the logged delays are
exactly reconnectDelay 0 .. reconnectDelay (n-1). -/
theorem backoffCycle_iterate (n : Nat) :
    (WebSocketTransport.backoffCycle^[n] WebSocketTransport.connectedState).reconnectAttempts = n ∧
      (WebSocketTransport.backoffCycle^[n] WebSocketTransport.connectedState).shouldReconnect = true ∧
      (WebSocketTransport.backoffCycle^[n] WebSocketTransport.connectedState).pendingTimers = 0 ∧
      (WebSocketTransport.backoffCycle^[n] WebSocketTransport.connectedState).scheduledDelays =
        (List.range n).map WebSocketTransport.reconnectDelay := by
  induction n with
  | zero => exact ⟨rfl, rfl, rfl, rfl⟩
  | succ k ih =>
    obtain ⟨h1, h2, h3, h4⟩ := ih
    rw [Function.iterate_succ_apply']
    simp [WebSocketTransport.backoffCycle, WebSocketTransport.onclose,
      WebSocketTransport.timerFire, WebSocketTransport.connect, h1, h2, h3, h4,
      List.range_succ]

/-- The backoff delay is monotone in the attempt counter. -/
theorem reconnectDelay_mono (i j : Nat) (hij : i ≤ j) :
    WebSocketTransport.reconnectDelay i ≤ WebSocketTransport.reconnectDelay j := by
  have hpow : (2 : Nat) ^ i ≤ 2 ^ j := Nat.pow_le_pow_right (by norm_num) hij
  exact min_le_min (mul_le_mul_left' hpow 1000) le_rfl

/-- Below the ceiling the backoff delay is strictly increasing. -/
theorem reconnectDelay_strict (i j : Nat) (hij : i < j)
    (hlt : WebSocketTransport.reconnectDelay i < WebSocketTransport.maxReconnectDelay) :
    WebSocketTransport.reconnectDelay i < WebSocketTransport.reconnectDelay j := by
  have hbase : 1000 * 2 ^ i < WebSocketTransport.maxReconnectDelay := by
    rcases min_lt_iff.mp hlt with h | h
    · exact h
    · exact absurd h (lt_irrefl _)
  have hpow : (2 : Nat) ^ i < 2 ^ j := Nat.pow_lt_pow_right (by norm_num) hij
  have hmul : 1000 * 2 ^ i < 1000 * 2 ^ j :=
    mul_lt_mul_of_pos_left hpow (by norm_num)
  have hleft : WebSocketTransport.reconnectDelay i = 1000 * 2 ^ i := min_eq_left hbase.le
  rw [hleft, WebSocketTransport.reconnectDelay]
  exact lt_min hmul hbase

/-- Claim C5: after each unexpected close the reconnect delay is exactly
min(1000 * 2 ^ attempt, 5000) for the current attempt counter, the delays
across consecutive unexpected closes increase strictly until the 5000 ms
ceiling, and the counter resets to zero on the next successful open. -/
theorem ws_backoff_delay_schedule :
    (∀ n, (WebSocketTransport.backoffCycle^[n]
        WebSocketTransport.connectedState).scheduledDelays =
      (List.range n).map WebSocketTransport.reconnectDelay) ∧
      (∀ k, WebSocketTransport.reconnectDelay k =
        min (1000 * 2 ^ k) WebSocketTransport.maxReconnectDelay) ∧
      (∀ i j, i < j →
        WebSocketTransport.reconnectDelay i ≤ WebSocketTransport.reconnectDelay j ∧
          (WebSocketTransport.reconnectDelay i < WebSocketTransport.maxReconnectDelay →
            WebSocketTransport.reconnectDelay i < WebSocketTransport.reconnectDelay j)) ∧
      (∀ s, (WebSocketTransport.onopen s).reconnectAttempts = 0) := by
  refine ⟨fun n => (backoffCycle_iterate n).2.2.2, fun k => rfl,
    fun i j hij => ⟨reconnectDelay_mono i j hij.le, reconnectDelay_strict i j hij⟩,
    fun s => rfl⟩

/-- Witness for claim C5: three consecutive unexpected closes schedule
delays 1000, 2000 and 4000 ms, and the delay strictly grows from attempt 1
to attempt 2. -/
theorem ws_backoff_delay_schedule_witness :
    (WebSocketTransport.backoffCycle^[3]
        WebSocketTransport.connectedState).scheduledDelays = [1000, 2000, 4000] ∧
      WebSocketTransport.reconnectDelay 1 < WebSocketTransport.reconnectDelay 2 := by
  obtain ⟨h1, _, h3, _⟩ := ws_backoff_delay_schedule
  exact ⟨(h1 3).trans (by decide), (h3 1 2 (by norm_num)).2 (by decide)⟩

/-- Counterexample to claim C6: with a reconnect timer pending from an
unexpected close, two disconnect calls leave the timer pending, and when it
fires it still performs a reconnect attempt, creating a fresh socket —
disconnect does not invalidate the pending timer. -/
theorem ws_disconnect_pending_timer_fires_cex :
    WebSocketTransport.cexDisconnectState.pendingTimers = 1 ∧
      WebSocketTransport.isConnected WebSocketTransport.cexDisconnectState = false ∧
      (WebSocketTransport.timerFire WebSocketTransport.cexDisconnectState).connectCalls =
        WebSocketTransport.cexDisconnectState.connectCalls + 1 ∧
      (WebSocketTransport.timerFire WebSocketTransport.cexDisconnectState).socket = true := by
  decide

/-- Claim C6 amended: disconnect is idempotent, never errors, leaves
isConnected false in any state, and prevents any later close event from
scheduling a new reconnect; however it does not cancel an already pending
reconnect timer, which survives disconnect unchanged. -/
theorem ws_disconnect_idempotent (s : WebSocketTransport.State) :
    WebSocketTransport.disconnect (WebSocketTransport.disconnect s) =
        WebSocketTransport.disconnect s ∧
      WebSocketTransport.isConnected (WebSocketTransport.disconnect s) = false ∧
      (WebSocketTransport.onclose (WebSocketTransport.disconnect s)).pendingTimers =
        (WebSocketTransport.disconnect s).pendingTimers ∧
      (WebSocketTransport.onclose (WebSocketTransport.disconnect s)).scheduledDelays =
        (WebSocketTransport.disconnect s).scheduledDelays ∧
      (WebSocketTransport.disconnect s).pendingTimers = s.pendingTimers := by
  refine ⟨rfl, rfl, ?_, ?_, rfl⟩ <;>
    simp [WebSocketTransport.onclose, WebSocketTransport.disconnect]

/-- Counterexample to claim C7: a first connect whose socket errors before
ever opening leaves the promise rejected; the close event the browser then
delivers still schedules a reconnect attempt, because the reconnect flag
was set at construction and not by a successful connect. -/
theorem ws_reject_before_open_schedules_cex :
    WebSocketTransport.cexFailedConnectState.promise = PromiseState.rejected ∧
      WebSocketTransport.cexFailedConnectState.pendingTimers = 1 ∧
      WebSocketTransport.cexFailedConnectState.scheduledDelays = [1000] ∧
      WebSocketTransport.cexFailedConnectState.connected = false := by
  decide

/-- Claim C7 amended: the reconnect supervisor flag is set from
construction and cleared only by disconnect, never by connect outcomes, so
after a connect that rejects before the first open the following close
event still schedules a reconnect; no open socket results (the connected
flag stays false). -/
theorem ws_reconnect_flag_from_construction :
    WebSocketTransport.mkState.shouldReconnect = true ∧
      (∀ s : WebSocketTransport.State,
        (WebSocketTransport.connect s).shouldReconnect = s.shouldReconnect ∧
          (WebSocketTransport.onopen s).shouldReconnect = s.shouldReconnect ∧
          (WebSocketTransport.onerror s).shouldReconnect = s.shouldReconnect ∧
          (WebSocketTransport.onclose s).shouldReconnect = s.shouldReconnect ∧
          (WebSocketTransport.disconnect s).shouldReconnect = false) ∧
      (∀ s : WebSocketTransport.State, s.shouldReconnect = true →
        (WebSocketTransport.onclose s).pendingTimers = s.pendingTimers + 1) ∧
      WebSocketTransport.cexFailedConnectState.pendingTimers = 1 ∧
      WebSocketTransport.cexFailedConnectState.connected = false := by
  refine ⟨rfl, fun s => ⟨rfl, rfl, ?_, ?_, rfl⟩, fun s hsr => ?_, by decide, by decide⟩
  · by_cases hc : s.connected <;> simp [WebSocketTransport.onerror, hc]
  · by_cases hr : s.shouldReconnect <;> simp [WebSocketTransport.onclose, hr]
  · simp [WebSocketTransport.onclose, hsr]

/-- Witness for the amended claim C7: a close on a fresh transport already
schedules a reconnect timer. -/
theorem ws_reconnect_flag_from_construction_witness :
    (WebSocketTransport.onclose WebSocketTransport.mkState).pendingTimers = 1 :=
  (ws_reconnect_flag_from_construction.2.2.1 WebSocketTransport.mkState rfl).trans rfl

/-- Resolve leaves a settled promise unchanged. -/
theorem resolveP_of_ne (p : PromiseState) (h : ¬p = .pending) : resolveP p = p := by
  cases p <;> simp_all [resolveP]

/-- Reject leaves a settled promise unchanged. -/
theorem rejectP_of_ne (p : PromiseState) (h : ¬p = .pending) : rejectP p = p := by
  cases p <;> simp_all [rejectP]

/-- Resolve never leaves a promise pending. -/
theorem resolveP_ne_pending (p : PromiseState) : ¬resolveP p = .pending := by
  cases p <;> simp [resolveP]

/-- Reject never leaves a promise pending. -/
theorem rejectP_ne_pending (p : PromiseState) : ¬rejectP p = .pending := by
  cases p <;> simp [rejectP]

/-- A settled connect promise is not changed by any further socket event. -/
theorem stepEv_promise_settled (s : WebSocketTransport.State) (e : WebSocketTransport.SockEv)
    (hp : ¬s.promise = .pending) :
    (WebSocketTransport.stepEv s e).promise = s.promise := by
  cases e
  · exact resolveP_of_ne s.promise hp
  · show (WebSocketTransport.onerror s).promise = s.promise
    by_cases hc : s.connected <;> simp [WebSocketTransport.onerror, hc, rejectP_of_ne s.promise hp]
  · show (WebSocketTransport.onclose s).promise = s.promise
    by_cases hr : s.shouldReconnect <;> simp [WebSocketTransport.onclose, hr]

/-- A settled connect promise is not changed by any further sequence of
socket events. -/
theorem runEvs_promise_settled (evs : List WebSocketTransport.SockEv)
    (s : WebSocketTransport.State) (hp : ¬s.promise = .pending) :
    (WebSocketTransport.runEvs s evs).promise = s.promise := by
  induction evs generalizing s with
  | nil => rfl
  | cons e t ih =>
    have h1 := stepEv_promise_settled s e hp
    have h2 := ih (WebSocketTransport.stepEv s e) (by rw [h1]; exact hp)
    exact h2.trans h1

/-- Invariant: while the connect promise is still pending the connected
flag is false; every socket event preserves this. -/
theorem stepEv_inv (s : WebSocketTransport.State) (e : WebSocketTransport.SockEv)
    (h : s.promise = .pending → s.connected = false) :
    (WebSocketTransport.stepEv s e).promise = .pending →
      (WebSocketTransport.stepEv s e).connected = false := by
  cases e
  · intro hp
    exact absurd hp (resolveP_ne_pending s.promise)
  · show (WebSocketTransport.onerror s).promise = .pending →
      (WebSocketTransport.onerror s).connected = false
    by_cases hc : s.connected
    · intro hp
      rw [WebSocketTransport.onerror, if_pos hc] at hp
      exact absurd (h hp) (by simp [hc])
    · intro hp
      simp [WebSocketTransport.onerror, hc]
  · intro hp
    show (WebSocketTransport.onclose s).connected = false
    by_cases hr : s.shouldReconnect <;> simp [WebSocketTransport.onclose, hr]

/-- If the event sequence holds an open or an error, or the promise is
already settled, the promise ends settled. -/
theorem runEvs_settles_of_mem (evs : List WebSocketTransport.SockEv)
    (s : WebSocketTransport.State)
    (hinv : s.promise = .pending → s.connected = false)
    (hmem : WebSocketTransport.SockEv.openEv ∈ evs ∨
      WebSocketTransport.SockEv.errorEv ∈ evs ∨ ¬s.promise = .pending) :
    ¬(WebSocketTransport.runEvs s evs).promise = .pending := by
  induction evs generalizing s with
  | nil =>
    rcases hmem with h | h | h
    · cases h
    · cases h
    · exact h
  | cons e t ih =>
    show ¬(WebSocketTransport.runEvs (WebSocketTransport.stepEv s e) t).promise = .pending
    rcases hmem with h | h | h
    · rcases List.mem_cons.mp h with hEq | hmt
      · refine ih (WebSocketTransport.stepEv s e) (stepEv_inv s e hinv) (Or.inr (Or.inr ?_))
        rw [← hEq]
        exact resolveP_ne_pending s.promise
      · exact ih (WebSocketTransport.stepEv s e) (stepEv_inv s e hinv) (Or.inl hmt)
    · rcases List.mem_cons.mp h with hEq | hmt
      · refine ih (WebSocketTransport.stepEv s e) (stepEv_inv s e hinv) (Or.inr (Or.inr ?_))
        rw [← hEq]
        show ¬(WebSocketTransport.onerror s).promise = .pending
        by_cases hc : s.connected
        · rw [WebSocketTransport.onerror, if_pos hc]
          intro hp
          exact absurd (hinv hp) (by simp [hc])
        · rw [WebSocketTransport.onerror, if_neg hc]
          exact rejectP_ne_pending s.promise
      · exact ih (WebSocketTransport.stepEv s e) (stepEv_inv s e hinv) (Or.inr (Or.inl hmt))
    · refine ih (WebSocketTransport.stepEv s e) (stepEv_inv s e hinv) (Or.inr (Or.inr ?_))
      rw [stepEv_promise_settled s e h]
      exact h

/-- Close events alone never touch the connect promise. -/
theorem runEvs_close_only (evs : List WebSocketTransport.SockEv)
    (s : WebSocketTransport.State) (h : ∀ e ∈ evs, e = WebSocketTransport.SockEv.closeEv) :
    (WebSocketTransport.runEvs s evs).promise = s.promise := by
  induction evs generalizing s with
  | nil => rfl
  | cons e t ih =>
    have he := h e (List.mem_cons_self e t)
    subst he
    have h1 : (WebSocketTransport.stepEv s WebSocketTransport.SockEv.closeEv).promise =
        s.promise := by
      show (WebSocketTransport.onclose s).promise = s.promise
      by_cases hr : s.shouldReconnect <;> simp [WebSocketTransport.onclose, hr]
    have h2 := ih (WebSocketTransport.stepEv s WebSocketTransport.SockEv.closeEv)
      (fun e he => h e (List.mem_cons_of_mem _ he))
    exact h2.trans h1

/-- Without an open event the promise never becomes resolved. -/
theorem runEvs_not_resolved (evs : List WebSocketTransport.SockEv)
    (s : WebSocketTransport.State)
    (hopen : WebSocketTransport.SockEv.openEv ∉ evs)
    (hs : ¬s.promise = .resolved) :
    ¬(WebSocketTransport.runEvs s evs).promise = .resolved := by
  induction evs generalizing s with
  | nil => exact hs
  | cons e t ih =>
    have hnt : WebSocketTransport.SockEv.openEv ∉ t :=
      fun hm => hopen (List.mem_cons_of_mem e hm)
    refine ih (WebSocketTransport.stepEv s e) hnt ?_
    cases e
    · exact absurd (List.mem_cons_self _ t) hopen
    · show ¬(WebSocketTransport.onerror s).promise = .resolved
      by_cases hc : s.connected
      · rw [WebSocketTransport.onerror, if_pos hc]
        exact hs
      · rw [WebSocketTransport.onerror, if_neg hc]
        cases hp : s.promise <;> simp_all [rejectP]
    · show ¬(WebSocketTransport.onclose s).promise = .resolved
      by_cases hr : s.shouldReconnect <;> simp [WebSocketTransport.onclose, hr, hs]

/-- Without an error event the promise never becomes rejected. -/
theorem runEvs_not_rejected (evs : List WebSocketTransport.SockEv)
    (s : WebSocketTransport.State)
    (herr : WebSocketTransport.SockEv.errorEv ∉ evs)
    (hs : ¬s.promise = .rejected) :
    ¬(WebSocketTransport.runEvs s evs).promise = .rejected := by
  induction evs generalizing s with
  | nil => exact hs
  | cons e t ih =>
    have hnt : WebSocketTransport.SockEv.errorEv ∉ t :=
      fun hm => herr (List.mem_cons_of_mem e hm)
    refine ih (WebSocketTransport.stepEv s e) hnt ?_
    cases e
    · show ¬(WebSocketTransport.onopen s).promise = .rejected
      cases hp : s.promise <;> simp_all [WebSocketTransport.onopen, resolveP]
    · exact absurd (List.mem_cons_self _ t) herr
    · show ¬(WebSocketTransport.onclose s).promise = .rejected
      by_cases hr : s.shouldReconnect <;> simp [WebSocketTransport.onclose, hr, hs]

/-- Counterexample to claim C8: a socket that delivers only a close event —
no open and no error — leaves the promise of the connect call forever
pending; the call neither resolves nor rejects. -/
theorem ws_connect_close_only_unsettled_cex :
    (WebSocketTransport.runEvs (WebSocketTransport.connect WebSocketTransport.mkState)
        [WebSocketTransport.SockEv.closeEv]).promise = PromiseState.pending := by
  decide

/-- Claim C8 amended: a connect call settles at most once — once settled
its promise never changes under further socket events — it resolves only
when an open event occurred and rejects only when an error event occurred,
and it settles precisely when the event sequence holds an open or an error;
a sequence of close events alone leaves it forever pending. -/
theorem ws_connect_settles_iff (evs : List WebSocketTransport.SockEv) :
    (¬(WebSocketTransport.runEvs (WebSocketTransport.connect WebSocketTransport.mkState)
          evs).promise = PromiseState.pending ↔
        (WebSocketTransport.SockEv.openEv ∈ evs ∨
          WebSocketTransport.SockEv.errorEv ∈ evs)) ∧
      ((WebSocketTransport.runEvs (WebSocketTransport.connect WebSocketTransport.mkState)
          evs).promise = PromiseState.resolved → WebSocketTransport.SockEv.openEv ∈ evs) ∧
      ((WebSocketTransport.runEvs (WebSocketTransport.connect WebSocketTransport.mkState)
          evs).promise = PromiseState.rejected → WebSocketTransport.SockEv.errorEv ∈ evs) ∧
      (∀ more, ¬(WebSocketTransport.runEvs (WebSocketTransport.connect WebSocketTransport.mkState)
          evs).promise = PromiseState.pending →
        (WebSocketTransport.runEvs (WebSocketTransport.connect WebSocketTransport.mkState)
            (evs ++ more)).promise =
          (WebSocketTransport.runEvs (WebSocketTransport.connect WebSocketTransport.mkState)
            evs).promise) := by
  refine ⟨⟨?_, ?_⟩, ?_, ?_, ?_⟩
  · intro hset
    by_contra hmem
    rw [not_or] at hmem
    have hall : ∀ e ∈ evs, e = WebSocketTransport.SockEv.closeEv := by
      intro e he
      cases e
      · exact absurd he hmem.1
      · exact absurd he hmem.2
      · rfl
    exact hset (runEvs_close_only evs _ hall)
  · intro hmem
    refine runEvs_settles_of_mem evs _ (fun _ => rfl) ?_
    rcases hmem with h | h
    · exact Or.inl h
    · exact Or.inr (Or.inl h)
  · intro hres
    by_contra hopen
    exact runEvs_not_resolved evs _ hopen (by decide) hres
  · intro hrej
    by_contra herr
    exact runEvs_not_rejected evs _ herr (by decide) hrej
  · intro more hset
    have : WebSocketTransport.runEvs (WebSocketTransport.connect WebSocketTransport.mkState)
        (evs ++ more) = WebSocketTransport.runEvs
          (WebSocketTransport.runEvs (WebSocketTransport.connect WebSocketTransport.mkState)
            evs) more := by
      simp [WebSocketTransport.runEvs, List.foldl_append]
    rw [this]
    exact runEvs_promise_settled more _ hset

/-- Witness for the amended claim C8: a lone open event settles the
promise (it resolves), and a lone error event settles it too. -/
theorem ws_connect_settles_iff_witness :
    ¬(WebSocketTransport.runEvs (WebSocketTransport.connect WebSocketTransport.mkState)
        [WebSocketTransport.SockEv.openEv]).promise = PromiseState.pending ∧
      WebSocketTransport.SockEv.errorEv ∈ [WebSocketTransport.SockEv.errorEv] :=
  ⟨(ws_connect_settles_iff [WebSocketTransport.SockEv.openEv]).1.mpr
      (Or.inl (by decide)),
    (ws_connect_settles_iff [WebSocketTransport.SockEv.errorEv]).2.2.1 (by decide)⟩

/-- Each inbound frame only appends its own deliveries to the log. -/
theorem onmessage_delivered_append {Frame Msg : Type} (decode : Frame → Except String Msg)
    (hs : List (Msg → Except String Unit)) (s : WebSocketTransport.MsgState Msg) (f : Frame) :
    (WebSocketTransport.onmessage decode hs s f).delivered =
      s.delivered ++ WebSocketTransport.deliveredBy decode hs f := by
  cases hd : decode f <;>
    simp [WebSocketTransport.onmessage, WebSocketTransport.deliveredBy, hd]

/-- Running the handler list on a payload when the handlers up to some
throwing handler return normally: exactly those handlers and the throwing
one are invoked, and the exception escapes. -/
theorem runHandlers_append_throw {Msg : Type} (as bs : List (Msg → Except String Unit))
    (hthrow : Msg → Except String Unit) (m : Msg) (err : String)
    (hth : hthrow m = .error err) (hok : ∀ h ∈ as, h m = .ok ()) :
    WebSocketTransport.runHandlers (as ++ hthrow :: bs) m = (as.length + 1, true) := by
  induction as with
  | nil => simp [WebSocketTransport.runHandlers, hth]
  | cons a t ih =>
    have ha : a m = .ok () := hok a (List.mem_cons_self a t)
    have ih2 := ih (fun h hm => hok h (List.mem_cons_of_mem a hm))
    show WebSocketTransport.runHandlers (a :: (t ++ hthrow :: bs)) m = (t.length + 1 + 1, true)
    simp [WebSocketTransport.runHandlers, ha, ih2]

/-- Claim C9: when an inbound frame fails to decode, the onmessage handler
logs the error and drops the frame: the whole transport state apart from
the log is untouched, nothing is delivered, and any subsequent frame is
decoded and delivered exactly as it would have been. -/
theorem ws_decode_failure_frame_dropped {Frame Msg : Type}
    (decode : Frame → Except String Msg) (hs : List (Msg → Except String Unit))
    (s : WebSocketTransport.MsgState Msg) (f : Frame) (e : String)
    (hdec : decode f = .error e) :
    WebSocketTransport.onmessage decode hs s f =
        { s with errorsLogged := s.errorsLogged + 1 } ∧
      ∀ f2, (WebSocketTransport.onmessage decode hs
          (WebSocketTransport.onmessage decode hs s f) f2).delivered =
        (WebSocketTransport.onmessage decode hs s f2).delivered := by
  have h1 : WebSocketTransport.onmessage decode hs s f =
      { s with errorsLogged := s.errorsLogged + 1 } := by
    simp [WebSocketTransport.onmessage, hdec]
  refine ⟨h1, fun f2 => ?_⟩
  rw [h1, onmessage_delivered_append, onmessage_delivered_append]

/-- Witness for claim C9 with a concrete decoder that rejects frame 0: the
bad frame only bumps the error log and a following good frame is delivered
as usual. -/
theorem ws_decode_failure_frame_dropped_witness :
    WebSocketTransport.onmessage decNat [okHandler] msg0 0 =
        { msg0 with errorsLogged := 1 } ∧
      (WebSocketTransport.onmessage decNat [okHandler]
          (WebSocketTransport.onmessage decNat [okHandler] msg0 0) 5).delivered =
        (WebSocketTransport.onmessage decNat [okHandler] msg0 5).delivered :=
  ⟨(ws_decode_failure_frame_dropped decNat [okHandler] msg0 0 "bad" rfl).1,
    (ws_decode_failure_frame_dropped decNat [okHandler] msg0 0 "bad" rfl).2 5⟩

/-- Claim C10: an exception thrown by a registered message handler is
caught inside the onmessage try block and logged; the connection state,
the promise, the socket, the reconnect state and the handler list are all
untouched, the handlers registered before the throwing one have already
received the payload, and subsequent frames are still decoded and
delivered. -/
theorem ws_handler_exception_contained {Frame Msg : Type}
    (decode : Frame → Except String Msg) (as bs : List (Msg → Except String Unit))
    (hthrow : Msg → Except String Unit) (s : WebSocketTransport.MsgState Msg)
    (f : Frame) (m : Msg) (err : String)
    (hdec : decode f = .ok m) (hth : hthrow m = .error err)
    (hok : ∀ h ∈ as, h m = .ok ()) :
    (WebSocketTransport.onmessage decode (as ++ hthrow :: bs) s f).connected = s.connected ∧
      (WebSocketTransport.onmessage decode (as ++ hthrow :: bs) s f).promise = s.promise ∧
      (WebSocketTransport.onmessage decode (as ++ hthrow :: bs) s f).socketOpen = s.socketOpen ∧
      (WebSocketTransport.onmessage decode (as ++ hthrow :: bs) s f).shouldReconnect =
        s.shouldReconnect ∧
      (WebSocketTransport.onmessage decode (as ++ hthrow :: bs) s f).pendingTimers =
        s.pendingTimers ∧
      (WebSocketTransport.onmessage decode (as ++ hthrow :: bs) s f).delivered =
        s.delivered ++ List.replicate (as.length + 1) m ∧
      (WebSocketTransport.onmessage decode (as ++ hthrow :: bs) s f).errorsLogged =
        s.errorsLogged + 1 ∧
      ∀ f2, (WebSocketTransport.onmessage decode (as ++ hthrow :: bs)
          (WebSocketTransport.onmessage decode (as ++ hthrow :: bs) s f) f2).delivered =
        s.delivered ++ List.replicate (as.length + 1) m ++
          WebSocketTransport.deliveredBy decode (as ++ hthrow :: bs) f2 := by
  have hrun := runHandlers_append_throw as bs hthrow m err hth hok
  have heq : WebSocketTransport.onmessage decode (as ++ hthrow :: bs) s f =
      { s with delivered := s.delivered ++ List.replicate (as.length + 1) m,
               errorsLogged := s.errorsLogged + 1 } := by
    simp [WebSocketTransport.onmessage, hdec, hrun]
  refine ⟨by rw [heq], by rw [heq], by rw [heq], by rw [heq], by rw [heq],
    by rw [heq], by rw [heq], fun f2 => ?_⟩
  rw [onmessage_delivered_append, heq]

/-- Witness for claim C10 with two well behaved handlers around a throwing
one: the payload reaches the first handler and the thrower, the error log
bumps once, and nothing else changes. -/
theorem ws_handler_exception_contained_witness :
    (WebSocketTransport.onmessage idDecode ([okHandler] ++ throwHandler :: [okHandler])
        msg0 7).delivered = [7, 7] ∧
      (WebSocketTransport.onmessage idDecode ([okHandler] ++ throwHandler :: [okHandler])
          msg0 7).connected = true ∧
      (WebSocketTransport.onmessage idDecode ([okHandler] ++ throwHandler :: [okHandler])
          msg0 7).errorsLogged = 1 := by
  have hx := ws_handler_exception_contained idDecode [okHandler] [okHandler] throwHandler
    msg0 7 7 "boom" rfl rfl (by intro h hm; rw [List.mem_singleton.mp hm]; rfl)
  exact ⟨hx.2.2.2.2.2.1.trans rfl, hx.1.trans rfl, hx.2.2.2.2.2.2.1.trans rfl⟩
